import Mathlib

/-!
A shallow embedding of the minitwit Go application (src/app/main.go and
src/controllers/controllers.go).  The persistent store is modelled as lists
of table rows in insertion order, the cookie session as a record of optional
values, and each HTTP handler as a pure function from the store, the session
and the request's form values to an HTTP-level outcome together with the
updated store and session.  Storage failures (a database connection error)
have no counterpart in the model; gorm's ErrRecordNotFound is modelled by
Option / empty results, matching the handlers, which treat it as "no rows".
-/

namespace Minitwit

/-- A bcrypt hash token.  bcrypt embeds the random salt it drew in the token
it produces, and verification re-runs the digest with that salt. -/
structure HashToken where
  salt : Nat
  digest : Nat
deriving DecidableEq, Repr

/-- Modelled from the spec: the salted one-way digest underlying bcrypt.
`bcrypt.GenerateFromPassword` and `bcrypt.CompareHashAndPassword` are an
external library, absent from the repository; the spec describes the hasher
as "one-way salted hashing" whose tokens always verify against the plaintext
they were produced from.  The concrete mixing function is irrelevant: what
matters is that it is a function of the salt and the plaintext only. -/
def bcryptDigest (salt : Nat) (password : String) : Nat :=
  password.data.foldl (fun acc c => acc * 31 + c.toNat) (salt + 1)

/-- Go: controllers.Generate_password_hash — wraps bcrypt.GenerateFromPassword
(cost 8).  The salt is the library's internal randomness, made an explicit
parameter here: it is the source of the hash's nondeterminism. -/
def Generate_password_hash (password : String) (salt : Nat) : HashToken :=
  ⟨salt, bcryptDigest salt password⟩

/-- Go: main.checkPwHash — wraps bcrypt.CompareHashAndPassword; true iff the
digest recomputed from the token's stored salt matches the token. -/
def checkPwHash (password : String) (hash : HashToken) : Bool :=
  hash.digest == bcryptDigest hash.salt password

/-- Go: controllers.User (gorm model; ID is the auto-assigned primary key,
nonzero for every persisted row). -/
structure User where
  id : Nat
  username : String
  email : String
  pwHash : HashToken
deriving DecidableEq, Repr

/-- Go: controllers.Follower — one follow edge (follower_id, follows_id). -/
structure Follower where
  followerId : Nat
  followsId : Nat
deriving DecidableEq, Repr

/-- Go: controllers.Message (message rows; date is a unix timestamp). -/
structure Message where
  authorId : Nat
  text : String
  date : Int
  flagged : Int
deriving DecidableEq, Repr

/-- The persistent store: the users, followers and messages tables. -/
structure Store where
  users : List User
  followers : List Follower
  messages : List Message
deriving DecidableEq, Repr

/-- The "user-session" cookie session: the values user_id and username
(`none` = the key is absent from session.Values), plus the flashes. -/
structure Session where
  userId : Option Nat
  username : Option String
  flashes : List String
deriving DecidableEq, Repr

def emptySession : Session := ⟨none, none, []⟩

/-- Go: session.AddFlash. -/
def addFlash (sess : Session) (msg : String) : Session :=
  { sess with flashes := sess.flashes ++ [msg] }

/-- Go: main.clearUserSessionData — deletes user_id and username from the
session values and saves the session. -/
def clearUserSessionData (sess : Session) : Session :=
  { sess with userId := none, username := none }

/-- Go: main.getUserSession — returns the session and the caller's identity.
If either user_id or username is absent, the anonymous user {0, ""} is
returned and the session data is cleared (the returned session reflects the
clearing, since clearUserSessionData mutates the same request-cached
session); otherwise the stored identity is returned unchanged. -/
def getUserSession (sess : Session) : Session × User :=
  match sess.userId, sess.username with
  | some uid, some uname => (sess, ⟨uid, uname, "", ⟨0, 0⟩⟩)
  | _, _ => (clearUserSessionData sess, ⟨0, "", "", ⟨0, 0⟩⟩)

/-- Modelled from the spec: controllers.GetUserID — called from main.go but
not among the repository sources provided; the spec says follow/unfollow
"resolves targetUsername to a target id via the user store" and treats id 0
as "no such user" (registration checks `userID != 0` for username-taken). -/
def GetUserID (username : String) (s : Store) : Nat :=
  match s.users.find? (fun u => u.username == username) with
  | some u => u.id
  | none => 0

/-- Go: db.First(&user, "username = ?", username) — the first users row with
this username; `none` models gorm.ErrRecordNotFound. -/
def findUserByUsername (s : Store) (username : String) : Option User :=
  s.users.find? (fun u => u.username == username)

/-- Go: const perPage = 30. -/
def perPage : Nat := 30

/-- Go: the subquery db.Select("follows_id").Find(&Follower{}, "follower_id = ?", uid)
— the follows_id column of the followers rows whose follower_id is uid. -/
def followeeIds (s : Store) (uid : Nat) : List Nat :=
  (s.followers.filter (fun f => f.followerId == uid)).map (fun f => f.followsId)

/-- The JOIN users ON messages.author_id = users.id clause: a message row
survives the inner join iff some users row carries its author id. -/
def authorExists (s : Store) (m : Message) : Bool :=
  s.users.any (fun u => u.id == m.authorId)

/-- ORDER BY messages.date desc — a stable sort, newest first. -/
def sortByDateDesc (l : List Message) : List Message :=
  l.insertionSort (fun a b => b.date ≤ a.date)

/-- Go: main.getMessages — the three query modes (public, own timeline,
profile), each WHERE-filtered, ordered by date descending and limited to
perPage rows.  In the own-timeline mode the chained gorm calls
`.Where("users.id = ?", uid).Or("users.id IN (?)", sub).Find(&messages, "flagged = ?", 0)`
merge into the flat clause list [users.id = ?, OR users.id IN (?), flagged = ?],
which gorm renders without parentheses as
`users.id = ? OR users.id IN (?) AND flagged = ?`; since SQL gives AND
precedence over OR, the flagged filter applies only to the followee
disjunct, and the viewer's own rows are selected flagged or not. -/
def getMessages (s : Store) (sess : Session) (publicMode ownMode : Bool)
    (usernameVar : String) : List Message :=
  let user := (getUserSession sess).2
  if publicMode then
    (sortByDateDesc (s.messages.filter
      (fun m => authorExists s m && m.flagged == 0))).take perPage
  else if ownMode then
    (sortByDateDesc (s.messages.filter
      (fun m => authorExists s m &&
        (m.authorId == user.id ||
          ((followeeIds s user.id).contains m.authorId && m.flagged == 0))))).take perPage
  else
    (sortByDateDesc (s.messages.filter
      (fun m => m.flagged == 0 &&
        s.users.any (fun u => u.id == m.authorId && u.username == usernameVar)))).take perPage

/-- The HTTP-level outcome of a handler: 401, 404, a 303 redirect, or the
page re-rendered with an error string (login/register failures). -/
inductive HResult where
  | unauthorized
  | notFound
  | redirect (target : String)
  | errorPage (msg : String)
deriving DecidableEq, Repr

/-- Go: main.follow — 401 for an anonymous caller (empty session username);
404 when the target username resolves to id 0; otherwise inserts a
Follower{FollowerID, FollowsID} row — with no pre-existing-edge check — and
redirects to the target's page. -/
def follow (s : Store) (sess : Session) (targetUsername : String) :
    HResult × Store × Session :=
  let r := getUserSession sess
  let sess1 := r.1
  let user := r.2
  if user.username = "" then (HResult.unauthorized, s, sess1)
  else
    let followsID := GetUserID targetUsername s
    if followsID = 0 then (HResult.notFound, s, sess1)
    else
      (HResult.redirect ("/" ++ targetUsername),
       { s with followers := s.followers ++ [⟨user.id, followsID⟩] },
       addFlash sess1 "You are now following %s")

/-- Go: main.unfollow — 401 for an anonymous caller; 404 when the target
username resolves to id 0; otherwise deletes every followers row with
follower_id = caller and follows_id = target, then redirects. -/
def unfollow (s : Store) (sess : Session) (targetUsername : String) :
    HResult × Store × Session :=
  let r := getUserSession sess
  let sess1 := r.1
  let user := r.2
  if user.username = "" then (HResult.unauthorized, s, sess1)
  else
    let followsID := GetUserID targetUsername s
    if followsID = 0 then (HResult.notFound, s, sess1)
    else
      (HResult.redirect ("/" ++ targetUsername),
       { s with followers :=
           s.followers.filter (fun f => !(f.followerId == user.id && f.followsId == followsID)) },
       addFlash sess1 "You are no longer following %s")

/-- Go: main.addMessage — 401 when the session user id is 0; creates a
Message row only when the text form value is non-empty (with flagged 0 and
the current unix time); always redirects to "/" otherwise, so an empty text
is a silent successful no-op. -/
def addMessage (s : Store) (sess : Session) (text : String) (now : Int) :
    HResult × Store × Session :=
  let r := getUserSession sess
  let sess1 := r.1
  let user := r.2
  if user.id = 0 then (HResult.unauthorized, s, sess1)
  else if text ≠ "" then
    (HResult.redirect "/", { s with messages := s.messages ++ [⟨user.id, text, now, 0⟩] },
     addFlash sess1 "Your message was recorded")
  else (HResult.redirect "/", s, sess1)

/-- Go: main.login, POST path — redirects home when already logged in;
otherwise looks the user up by username: ErrRecordNotFound renders "Invalid
username", and a found user is logged in (flash, session values, redirect).
Note that when the lookup succeeds the code takes the query.Error == nil
branch and never calls checkPwHash: the "Invalid password" branch sits
inside the query.Error != nil branch and is reachable only when the lookup
fails with an error other than gorm.ErrRecordNotFound (a storage failure),
which the error-free store model has no counterpart for. -/
def login (s : Store) (sess : Session) (username password : String) :
    HResult × Store × Session :=
  let r := getUserSession sess
  let sess1 := r.1
  let user := r.2
  if user.id ≠ 0 then (HResult.redirect "/", s, sess1)
  else
    match findUserByUsername s username with
    | none => (HResult.errorPage "Invalid username", s, sess1)
    | some u =>
        (HResult.redirect "/", s,
         { addFlash sess1 "You were logged in" with
             userId := some u.id, username := some u.username })

/-- Modelled from the spec: the store assigns the new users row's primary
key (an "opaque numeric id"); gorm's auto-increment yields a fresh nonzero
id.  Any nonzero fresh value serves. -/
def freshUserId (s : Store) : Nat :=
  (s.users.map (fun u => u.id)).foldr max 0 + 1

/-- Go: main.register, POST path — redirects home when session user_id is
set; otherwise validates in order (username non-empty, email non-empty and
containing @, password non-empty, password equal to its confirmation,
username not already taken via GetUserID), each failure re-rendering the
page with its error string and leaving the store untouched; on success
hashes the password, inserts the users row, flashes, and redirects to
/login without setting the session identity (no auto-login). -/
def register (s : Store) (sess : Session) (salt : Nat)
    (username email password password2 : String) :
    HResult × Store × Session :=
  if sess.userId.isSome then (HResult.redirect "/", s, sess)
  else
    let userID := GetUserID username s
    if username = "" then
      (HResult.errorPage "You have to enter a username", s, sess)
    else if email = "" ∨ ¬(email.data.contains '@') then
      (HResult.errorPage "You have to enter a valid email address", s, sess)
    else if password = "" then
      (HResult.errorPage "You have to enter a password", s, sess)
    else if password ≠ password2 then
      (HResult.errorPage "The two passwords do not match", s, sess)
    else if userID ≠ 0 then
      (HResult.errorPage "The username is already taken", s, sess)
    else
      (HResult.redirect "/login",
       { s with users := s.users ++
           [⟨freshUserId s, username, email, Generate_password_hash password salt⟩] },
       addFlash sess "You were successfully registered and can login now")

/-- Edge multiplicity: the number of followers rows for the ordered pair. -/
def countEdges (s : Store) (fid tid : Nat) : Nat :=
  (s.followers.filter (fun f => f.followerId == fid && f.followsId == tid)).length

/-- n repeated follow requests for the same target, threading store and
session. -/
def followN (s : Store) (sess : Session) (target : String) : Nat → Store × Session
  | 0 => (s, sess)
  | n + 1 =>
      let p := followN s sess target n
      let r := follow p.1 p.2 target
      (r.2.1, r.2.2)

/-- A user "ada" whose stored hash was produced from the password "pw1". -/
def adaToken : HashToken := Generate_password_hash "pw1" 0

/-- A store holding only the user ada. -/
def c1Store : Store := ⟨[⟨1, "ada", "ada@x.com", adaToken⟩], [], []⟩

/-- Thirty flagged messages by user 1 (dates 100..129) followed by one
non-flagged message by user 2 (date 50). -/
def c2Msgs : List Message :=
  (List.range 30).map (fun i => ⟨1, "spam", (100 + i : Nat), 1⟩) ++ [⟨2, "hello", 50, 0⟩]

/-- Users 1 and 2, where 1 follows 2, with the messages of c2Msgs. -/
def c2Store : Store :=
  ⟨[⟨1, "u1", "u1@x.com", ⟨0, 0⟩⟩, ⟨2, "u2", "u2@x.com", ⟨0, 0⟩⟩], [⟨1, 2⟩], c2Msgs⟩

/-- A session logged in as user 1. -/
def c2Sess : Session := ⟨some 1, some "u1", []⟩

/-- A store holding one user named ada (for the registration claims). -/
def c7Store : Store := ⟨[⟨1, "ada", "ada@x.com", ⟨0, 0⟩⟩], [], []⟩

/-- A one-user, one-message store (for the public-feed witness). -/
def w3Store : Store := ⟨[⟨1, "u1", "u1@x.com", ⟨0, 0⟩⟩], [], [⟨1, "hi", 10, 0⟩]⟩

/-- A store holding only the user bob (for the follow witness). -/
def wStoreBob : Store := ⟨[⟨1, "bob", "b@x.com", ⟨0, 0⟩⟩], [], []⟩

/-- Bob plus three follow edges, two of them the duplicate pair (2, 1)
(for the unfollow witness). -/
def wStoreBobEdges : Store :=
  ⟨[⟨1, "bob", "b@x.com", ⟨0, 0⟩⟩], [⟨2, 1⟩, ⟨3, 1⟩, ⟨2, 1⟩], []⟩

/-- A session logged in as user 2 ("alice"). -/
def wSessAlice : Session := ⟨some 2, some "alice", []⟩

end Minitwit

namespace Minitwit

theorem sortByDateDesc_perm (l : List Message) : (sortByDateDesc l).Perm l :=
  List.perm_insertionSort _ l

theorem sortByDateDesc_sorted (l : List Message) :
    List.Pairwise (fun a b : Message => b.date ≤ a.date) (sortByDateDesc l) := by
  haveI : IsTotal Message (fun a b : Message => b.date ≤ a.date) :=
    ⟨fun a b => Int.le_total b.date a.date⟩
  haveI : IsTrans Message (fun a b : Message => b.date ≤ a.date) :=
    ⟨fun a b c hab hbc => le_trans hbc hab⟩
  exact List.sorted_insertionSort _ l

/-- Every row of a filtered, sorted, truncated query comes from the table and
satisfies the filter. -/
theorem feed_mem {p : Message → Bool} {msgs : List Message} {m : Message} {n : Nat}
    (h : m ∈ (sortByDateDesc (msgs.filter p)).take n) :
    m ∈ msgs ∧ p m = true := by
  have h1 : m ∈ sortByDateDesc (msgs.filter p) := List.take_subset _ _ h
  have h2 : m ∈ msgs.filter p := (sortByDateDesc_perm _).mem_iff.mp h1
  exact List.mem_filter.mp h2

/-- A truncated sorted query stays sorted. -/
theorem feed_sorted (p : Message → Bool) (msgs : List Message) (n : Nat) :
    List.Pairwise (fun a b : Message => b.date ≤ a.date)
      ((sortByDateDesc (msgs.filter p)).take n) :=
  List.Pairwise.sublist (List.take_sublist _ _) (sortByDateDesc_sorted _)

/-- In a date-descending list, an element missing from the first n entries is
missing only because the n entries are full and all at least as new. -/
theorem sorted_take_complete {l : List Message} {n : Nat} {m : Message}
    (hs : List.Pairwise (fun a b : Message => b.date ≤ a.date) l) (hm : m ∈ l) :
    m ∈ l.take n ∨ ((l.take n).length = n ∧ ∀ x ∈ l.take n, m.date ≤ x.date) := by
  by_cases h : m ∈ l.take n
  · exact Or.inl h
  · right
    have hsplit : l.take n ++ l.drop n = l := List.take_append_drop n l
    have hdrop : m ∈ l.drop n := by
      have hmem : m ∈ l.take n ++ l.drop n := by rw [hsplit]; exact hm
      rcases List.mem_append.mp hmem with h1 | h1
      · exact absurd h1 h
      · exact h1
    constructor
    · rcases Nat.le_total n l.length with h1 | h1
      · simp [List.length_take]; omega
      · exact absurd (by rw [List.take_of_length_le h1]; exact hm) h
    · have hs2 : List.Pairwise (fun a b : Message => b.date ≤ a.date) (l.take n ++ l.drop n) := by
        rw [hsplit]; exact hs
      have hcross := (List.pairwise_append.mp hs2).2.2
      exact fun x hx => hcross x hx m hdrop

/-- A query for every eligible row returns each eligible row unless the page
is full of rows at least as new. -/
theorem feed_complete {p : Message → Bool} {msgs : List Message} {m : Message} {n : Nat}
    (hm : m ∈ msgs) (hp : p m = true) :
    m ∈ (sortByDateDesc (msgs.filter p)).take n ∨
      (((sortByDateDesc (msgs.filter p)).take n).length = n ∧
        ∀ x ∈ (sortByDateDesc (msgs.filter p)).take n, m.date ≤ x.date) := by
  have h1 : m ∈ msgs.filter p := List.mem_filter.mpr ⟨hm, hp⟩
  have h2 : m ∈ sortByDateDesc (msgs.filter p) := (sortByDateDesc_perm _).mem_iff.mpr h1
  exact sorted_take_complete (sortByDateDesc_sorted _) h2

theorem getMessages_public_eq (s : Store) (sess : Session) (uv : String) :
    getMessages s sess true false uv =
      (sortByDateDesc (s.messages.filter
        (fun m => authorExists s m && m.flagged == 0))).take perPage := rfl

/-- Claim C3: for every store state, the public feed returns only messages
whose flagged field is 0, drawn from all authors (every non-flagged message
with an existing author appears unless displaced past the page limit by
newer qualifying messages), ordered by creation timestamp descending, with
at most 30 entries. -/
theorem publicFeed_spec (s : Store) (sess : Session) (uv : String) :
    (∀ m ∈ getMessages s sess true false uv, m.flagged = 0 ∧ m ∈ s.messages) ∧
    List.Pairwise (fun a b : Message => b.date ≤ a.date) (getMessages s sess true false uv) ∧
    (getMessages s sess true false uv).length ≤ 30 ∧
    (∀ m ∈ s.messages, m.flagged = 0 → authorExists s m = true →
       m ∈ getMessages s sess true false uv ∨
         ((getMessages s sess true false uv).length = 30 ∧
           ∀ x ∈ getMessages s sess true false uv, m.date ≤ x.date)) := by
  rw [getMessages_public_eq]
  refine ⟨?_, ?_, ?_, ?_⟩
  · intro m hm
    obtain ⟨h1, h2⟩ := feed_mem hm
    simp only [Bool.and_eq_true, beq_iff_eq] at h2
    exact ⟨h2.2, h1⟩
  · exact feed_sorted _ _ _
  · exact List.length_take_le _ _
  · intro m hm hflag hauth
    exact feed_complete hm (by simp [hauth, hflag])

/-- Claim C3 witness: in a one-message store the single non-flagged message
is in the public feed. -/
theorem publicFeed_spec_witness :
    (⟨1, "hi", 10, 0⟩ : Message) ∈ getMessages w3Store emptySession true false "" := by
  have h := (publicFeed_spec w3Store emptySession "").2.2.2 ⟨1, "hi", 10, 0⟩
    (by decide) (by decide) (by decide)
  rcases h with h1 | h2
  · exact h1
  · exact absurd h2.1 (by decide)

/-- Claim C1 (code bug): with ada's stored hash produced from "pw1", the
password "wrong" does not verify, yet the login handler logs ada in —
redirect home, session identity established — because the checkPwHash call
sits on the query-error branch and is never reached for an existing user. -/
theorem login_wrong_password_bug :
    checkPwHash "wrong" adaToken = false ∧
    login c1Store emptySession "ada" "wrong" =
      (HResult.redirect "/", c1Store, ⟨some 1, some "ada", ["You were logged in"]⟩) := by
  decide

/-- Claim C2 (code bug): user 1 follows user 2; the store holds exactly one
non-flagged message authored by user 1 or a followee (user 2's "hello"), yet
user 1's own timeline omits it and returns thirty flagged messages instead:
the rendered WHERE clause applies the flagged filter only to the followee
disjunct, so the viewer's own flagged rows fill the page. -/
theorem ownTimeline_flagged_bug :
    Follower.mk 1 2 ∈ c2Store.followers ∧
    (⟨2, "hello", 50, 0⟩ : Message) ∈ c2Store.messages ∧
    (c2Store.messages.filter
      (fun m => m.flagged == 0 &&
        (m.authorId == 1 || (followeeIds c2Store 1).contains m.authorId))).length = 1 ∧
    (⟨2, "hello", 50, 0⟩ : Message) ∉ getMessages c2Store c2Sess false true "" ∧
    (getMessages c2Store c2Sess false true "").length = 30 ∧
    (∀ m ∈ getMessages c2Store c2Sess false true "", m.flagged = 1) := by
  decide

end Minitwit

namespace Minitwit

theorem GetUserID_eq_zero {s : Store} {target : String}
    (h : ∀ u ∈ s.users, u.username ≠ target) : GetUserID target s = 0 := by
  unfold GetUserID
  have hnone : s.users.find? (fun u => u.username == target) = none :=
    List.find?_eq_none.mpr (fun u hu => by simpa using h u hu)
  rw [hnone]

theorem GetUserID_congr {s1 s2 : Store} (target : String) (h : s1.users = s2.users) :
    GetUserID target s1 = GetUserID target s2 := by
  unfold GetUserID
  rw [h]

theorem countEdges_append_same (s : Store) (fid tid : Nat) :
    countEdges { s with followers := s.followers ++ [⟨fid, tid⟩] } fid tid =
      countEdges s fid tid + 1 := by
  simp [countEdges, List.filter_append]

theorem follow_auth_eq (s : Store) (fid : Nat) (uname : String) (fl : List String)
    (target : String) (hne : uname ≠ "") :
    follow s ⟨some fid, some uname, fl⟩ target =
      (if GetUserID target s = 0 then
        (HResult.notFound, s, ⟨some fid, some uname, fl⟩)
       else
        (HResult.redirect ("/" ++ target),
         { s with followers := s.followers ++ [⟨fid, GetUserID target s⟩] },
         addFlash ⟨some fid, some uname, fl⟩ "You are now following %s")) := by
  simp [follow, getUserSession, hne]

theorem followN_inv (s : Store) (fid : Nat) (uname target : String) (fl : List String)
    (tid : Nat) (hne : uname ≠ "") (htid : GetUserID target s = tid) (h0 : tid ≠ 0) :
    ∀ n : Nat, ∃ fl2 : List String,
      (followN s ⟨some fid, some uname, fl⟩ target n).2 = ⟨some fid, some uname, fl2⟩ ∧
      ((followN s ⟨some fid, some uname, fl⟩ target n).1).users = s.users ∧
      countEdges ((followN s ⟨some fid, some uname, fl⟩ target n).1) fid tid =
        countEdges s fid tid + n := by
  intro n
  induction n with
  | zero => exact ⟨fl, rfl, rfl, rfl⟩
  | succ n ih =>
      obtain ⟨fl2, hsess, husers, hcount⟩ := ih
      have hstep : followN s ⟨some fid, some uname, fl⟩ target (n + 1) =
          ((follow (followN s ⟨some fid, some uname, fl⟩ target n).1
              (followN s ⟨some fid, some uname, fl⟩ target n).2 target).2.1,
           (follow (followN s ⟨some fid, some uname, fl⟩ target n).1
              (followN s ⟨some fid, some uname, fl⟩ target n).2 target).2.2) := rfl
      have htid2 : GetUserID target (followN s ⟨some fid, some uname, fl⟩ target n).1 = tid := by
        rw [GetUserID_congr target husers]
        exact htid
      have hfol : follow (followN s ⟨some fid, some uname, fl⟩ target n).1
          (followN s ⟨some fid, some uname, fl⟩ target n).2 target =
          (HResult.redirect ("/" ++ target),
           { (followN s ⟨some fid, some uname, fl⟩ target n).1 with
               followers := ((followN s ⟨some fid, some uname, fl⟩ target n).1).followers ++ [⟨fid, tid⟩] },
           addFlash ⟨some fid, some uname, fl2⟩ "You are now following %s") := by
        rw [hsess, follow_auth_eq _ fid uname fl2 target hne, htid2, if_neg h0]
      refine ⟨fl2 ++ ["You are now following %s"], ?_, ?_, ?_⟩
      · rw [hstep, hfol]
        rfl
      · rw [hstep, hfol]
        exact husers
      · rw [hstep, hfol]
        rw [countEdges_append_same, hcount]
        omega

/-- Claim C4: for an authenticated follower, follow fails with 404 (NotFound)
when no user has the target username; otherwise it appends the edge
FollowEdge(followerId, targetId) to the store — with no pre-existing-edge
check, the full store equation showing an unconditional append — and
redirects; n repeated calls for the same pair add n duplicate edges. -/
theorem follow_spec (s : Store) (sess : Session) (fid : Nat) (uname target : String)
    (hid : sess.userId = some fid) (hun : sess.username = some uname) (hne : uname ≠ "") :
    ((∀ u ∈ s.users, u.username ≠ target) →
       follow s sess target = (HResult.notFound, s, sess)) ∧
    (∀ tid, GetUserID target s = tid → tid ≠ 0 →
       follow s sess target =
         (HResult.redirect ("/" ++ target),
          { s with followers := s.followers ++ [⟨fid, tid⟩] },
          addFlash sess "You are now following %s")) ∧
    (∀ tid, GetUserID target s = tid → tid ≠ 0 → ∀ n,
       countEdges ((followN s sess target n).1) fid tid = countEdges s fid tid + n) := by
  obtain ⟨a, b, fl⟩ := sess
  have ha : a = some fid := hid
  have hb : b = some uname := hun
  subst ha
  subst hb
  refine ⟨?_, ?_, ?_⟩
  · intro h
    rw [follow_auth_eq s fid uname fl target hne, if_pos (GetUserID_eq_zero h)]
  · intro tid htid h0
    rw [follow_auth_eq s fid uname fl target hne, htid, if_neg h0]
  · intro tid htid h0 n
    obtain ⟨fl2, _, _, hcount⟩ := followN_inv s fid uname target fl tid hne htid h0 n
    exact hcount

/-- Claim C4 witness: alice (user 2) follows "bob" (user 1): the edge is
appended, and two repeated calls leave two duplicate (2, 1) edges. -/
theorem follow_spec_witness :
    follow wStoreBob wSessAlice "bob" =
      (HResult.redirect "/bob",
       ⟨[⟨1, "bob", "b@x.com", ⟨0, 0⟩⟩], [⟨2, 1⟩], []⟩,
       ⟨some 2, some "alice", ["You are now following %s"]⟩) ∧
    countEdges ((followN wStoreBob wSessAlice "bob" 2).1) 2 1 = 2 := by
  have h := follow_spec wStoreBob wSessAlice 2 "alice" "bob" rfl rfl (by decide)
  constructor
  · have h2 := h.2.1 1 rfl (by decide)
    rw [h2]
    decide
  · have h3 := h.2.2 1 rfl (by decide) 2
    simpa using h3

end Minitwit

namespace Minitwit

theorem unfollow_auth_eq (s : Store) (fid : Nat) (uname : String) (fl : List String)
    (target : String) (hne : uname ≠ "") :
    unfollow s ⟨some fid, some uname, fl⟩ target =
      (if GetUserID target s = 0 then
        (HResult.notFound, s, ⟨some fid, some uname, fl⟩)
       else
        (HResult.redirect ("/" ++ target),
         { s with followers := s.followers.filter (fun f => !(f.followerId == fid && f.followsId == GetUserID target s)) },
         addFlash ⟨some fid, some uname, fl⟩ "You are no longer following %s")) := by
  simp [unfollow, getUserSession, hne]

/-- Claim C5: for an authenticated follower and a target username that
resolves, unfollow succeeds with a redirect, leaves zero edges for the
(follower, target) pair, keeps every other edge and the users and messages
tables, and when no edge existed it is a no-op with the store unchanged —
the absence of an edge is never an error. -/
theorem unfollow_spec (s : Store) (sess : Session) (fid tid : Nat) (uname target : String)
    (hid : sess.userId = some fid) (hun : sess.username = some uname) (hne : uname ≠ "")
    (htid : GetUserID target s = tid) (h0 : tid ≠ 0) :
    (unfollow s sess target).1 = HResult.redirect ("/" ++ target) ∧
    countEdges ((unfollow s sess target).2.1) fid tid = 0 ∧
    (∀ f ∈ s.followers, ¬(f.followerId = fid ∧ f.followsId = tid) →
       f ∈ ((unfollow s sess target).2.1).followers) ∧
    ((unfollow s sess target).2.1).users = s.users ∧
    ((unfollow s sess target).2.1).messages = s.messages ∧
    (countEdges s fid tid = 0 → (unfollow s sess target).2.1 = s) := by
  obtain ⟨a, b, fl⟩ := sess
  have ha : a = some fid := hid
  have hb : b = some uname := hun
  subst ha
  subst hb
  rw [unfollow_auth_eq s fid uname fl target hne, htid, if_neg h0]
  refine ⟨rfl, ?_, ?_, rfl, rfl, ?_⟩
  · simp only [countEdges]
    show (List.filter _ (s.followers.filter (fun f => !(f.followerId == fid && f.followsId == tid)))).length = 0
    rw [List.filter_filter]
    simp
  · intro f hf hcond
    show f ∈ s.followers.filter (fun f => !(f.followerId == fid && f.followsId == tid))
    refine List.mem_filter.mpr ⟨hf, ?_⟩
    cases hx : (f.followerId == fid && f.followsId == tid)
    · simp [hx]
    · exact absurd (by simpa using hx) hcond
  · intro hzero
    have hnil : s.followers.filter (fun f => f.followerId == fid && f.followsId == tid) = [] :=
      List.length_eq_zero.mp hzero
    have hall : ∀ f ∈ s.followers, ¬(f.followerId == fid && f.followsId == tid) = true :=
      List.filter_eq_nil_iff.mp hnil
    have hself : s.followers.filter (fun f => !(f.followerId == fid && f.followsId == tid)) = s.followers := by
      refine List.filter_eq_self.mpr ?_
      intro f hf
      cases hx : (f.followerId == fid && f.followsId == tid)
      · simp [hx]
      · exact absurd hx (hall f hf)
    show ({ s with followers := s.followers.filter (fun f => !(f.followerId == fid && f.followsId == tid)) } : Store) = s
    rw [hself]

/-- Claim C5 witness: alice (user 2) unfollows "bob" (user 1) in a store with
two duplicate (2, 1) edges and one (3, 1) edge: both duplicates go, the
(3, 1) edge stays, and the handler redirects. -/
theorem unfollow_spec_witness :
    (unfollow wStoreBobEdges wSessAlice "bob").1 = HResult.redirect "/bob" ∧
    countEdges ((unfollow wStoreBobEdges wSessAlice "bob").2.1) 2 1 = 0 ∧
    Follower.mk 3 1 ∈ ((unfollow wStoreBobEdges wSessAlice "bob").2.1).followers := by
  have h := unfollow_spec wStoreBobEdges wSessAlice 2 1 "alice" "bob" rfl rfl
    (by decide) rfl (by decide)
  exact ⟨h.1, h.2.1, h.2.2.1 ⟨3, 1⟩ (by decide) (by decide)⟩

end Minitwit

namespace Minitwit

/-- Claim C6: registration validates in exactly this order, short-circuiting
at the first failing rule with its specific error and an untouched store:
username non-empty, then email non-empty and containing @, then password
non-empty, then password equal to its confirmation, then username not
already taken; only when all pass is the password hashed and a new user row
appended, with no auto-login (the session identity stays absent). -/
theorem register_spec (s : Store) (sess : Session) (salt : Nat) (u e p p2 : String)
    (hanon : sess.userId = none) :
    (u = "" →
       register s sess salt u e p p2 =
         (HResult.errorPage "You have to enter a username", s, sess)) ∧
    (u ≠ "" → (e = "" ∨ e.data.contains '@' = false) →
       register s sess salt u e p p2 =
         (HResult.errorPage "You have to enter a valid email address", s, sess)) ∧
    (u ≠ "" → e ≠ "" → e.data.contains '@' = true → p = "" →
       register s sess salt u e p p2 =
         (HResult.errorPage "You have to enter a password", s, sess)) ∧
    (u ≠ "" → e ≠ "" → e.data.contains '@' = true → p ≠ "" → p ≠ p2 →
       register s sess salt u e p p2 =
         (HResult.errorPage "The two passwords do not match", s, sess)) ∧
    (u ≠ "" → e ≠ "" → e.data.contains '@' = true → p ≠ "" → p = p2 →
       GetUserID u s ≠ 0 →
       register s sess salt u e p p2 =
         (HResult.errorPage "The username is already taken", s, sess)) ∧
    (u ≠ "" → e ≠ "" → e.data.contains '@' = true → p ≠ "" → p = p2 →
       GetUserID u s = 0 →
       register s sess salt u e p p2 =
         (HResult.redirect "/login",
          { s with users := s.users ++ [⟨freshUserId s, u, e, Generate_password_hash p salt⟩] },
          addFlash sess "You were successfully registered and can login now") ∧
       ((register s sess salt u e p p2).2.2).userId = none ∧
       ((register s sess salt u e p p2).2.2).username = sess.username) := by
  refine ⟨?_, ?_, ?_, ?_, ?_, ?_⟩
  · intro h1
    simp [register, hanon, h1]
  · intro h1 h2
    rcases h2 with he | hc
    · simp [register, hanon, h1, he]
    · have hc2 : ¬('@' ∈ e.data) := by simpa using hc
      simp [register, hanon, h1, hc2]
  · intro h1 h2 h3 h4
    have h3m : '@' ∈ e.data := by simpa using h3
    simp [register, hanon, h1, h2, h3m, h4]
  · intro h1 h2 h3 h4 h5
    have h3m : '@' ∈ e.data := by simpa using h3
    simp [register, hanon, h1, h2, h3m, h4, h5]
  · intro h1 h2 h3 h4 h5 h6
    have h3m : '@' ∈ e.data := by simpa using h3
    subst h5
    simp [register, hanon, h1, h2, h3m, h4, h6]
  · intro h1 h2 h3 h4 h5 h6
    have h3m : '@' ∈ e.data := by simpa using h3
    subst h5
    refine ⟨?_, ?_, ?_⟩ <;> simp [register, addFlash, hanon, h1, h2, h3m, h4, h6]

/-- Claim C6 witness: a fresh registration of ada passes every rule, appends
the user row with the hashed password, and performs no auto-login. -/
theorem register_spec_witness :
    register ⟨[], [], []⟩ emptySession 5 "ada" "ada@x.com" "pw1" "pw1" =
      (HResult.redirect "/login",
       ⟨[⟨1, "ada", "ada@x.com", Generate_password_hash "pw1" 5⟩], [], []⟩,
       ⟨none, none, ["You were successfully registered and can login now"]⟩) := by
  have h := (register_spec ⟨[], [], []⟩ emptySession 5 "ada" "ada@x.com" "pw1" "pw1" rfl).2.2.2.2.2
    (by decide) (by decide) (by decide) (by decide) rfl rfl
  rw [h.1]
  decide

/-- Claim C7 counterexample: the username "ada" is already taken, yet a
registration with a taken username and an invalid email fails with the email
error, not the username-taken error: the earlier validation rules run
first. -/
theorem register_taken_cex :
    (∃ u ∈ c7Store.users, u.username = "ada") ∧
    (register c7Store emptySession 0 "ada" "" "pw" "pw").1 ≠
      HResult.errorPage "The username is already taken" ∧
    (register c7Store emptySession 0 "ada" "" "pw" "pw").1 =
      HResult.errorPage "You have to enter a valid email address" := by
  decide

/-- Claim C7 amended: for every registration input whose username already
belongs to an existing user and whose remaining fields pass the earlier
validation rules (username non-empty, email non-empty and containing @,
password non-empty and equal to its confirmation), registration fails with
the username-taken validation error regardless of the particular email and
password values, leaving the store unchanged. -/
theorem register_taken_amended (s : Store) (sess : Session) (salt : Nat) (u e p p2 : String)
    (hanon : sess.userId = none) (hu : u ≠ "") (he : e ≠ "")
    (he2 : e.data.contains '@' = true) (hp : p ≠ "") (hpp : p = p2)
    (htaken : GetUserID u s ≠ 0) :
    register s sess salt u e p p2 =
      (HResult.errorPage "The username is already taken", s, sess) := by
  have hem : '@' ∈ e.data := by simpa using he2
  subst hpp
  simp [register, hanon, hu, he, hem, hp, htaken]

/-- Claim C7 amended witness: re-registering "ada" with a fresh valid email
and password still fails with the username-taken error. -/
theorem register_taken_amended_witness :
    register c7Store emptySession 3 "ada" "new@y.com" "zzz" "zzz" =
      (HResult.errorPage "The username is already taken", c7Store, emptySession) :=
  register_taken_amended c7Store emptySession 3 "ada" "new@y.com" "zzz" "zzz"
    rfl (by decide) (by decide) (by decide) (by decide) rfl (by decide)

/-- Claim C8: session resolution never fails; a session missing either
identity field yields the anonymous principal {0, ""} and clears both
identity fields from the underlying session store, while a fully populated
session yields the stored identity with the session untouched. -/
theorem getUserSession_spec (sess : Session) :
    ((sess.userId = none ∨ sess.username = none) →
       getUserSession sess = (⟨none, none, sess.flashes⟩, ⟨0, "", "", ⟨0, 0⟩⟩)) ∧
    (∀ uid uname, sess.userId = some uid → sess.username = some uname →
       getUserSession sess = (sess, ⟨uid, uname, "", ⟨0, 0⟩⟩)) := by
  obtain ⟨a, b, fl⟩ := sess
  constructor
  · intro h
    rcases h with h | h
    · have ha : a = none := h
      subst ha
      cases b <;> rfl
    · have hb : b = none := h
      subst hb
      cases a <;> rfl
  · intro uid uname h1 h2
    have ha : a = some uid := h1
    have hb : b = some uname := h2
    subst ha
    subst hb
    rfl

/-- Claim C8 witness: a partially populated session (user_id present,
username absent) resolves to the anonymous principal and is cleared. -/
theorem getUserSession_spec_witness :
    getUserSession ⟨some 7, none, ["f"]⟩ = (⟨none, none, ["f"]⟩, ⟨0, "", "", ⟨0, 0⟩⟩) :=
  (getUserSession_spec ⟨some 7, none, ["f"]⟩).1 (Or.inr rfl)

/-- Claim C9: a password always verifies against any hash token produced
from it, for every salt; distinct salts produce distinct tokens (the hash is
nondeterministic across calls) and every such token still verifies. -/
theorem hash_verify_spec (p : String) (s1 s2 : Nat) :
    checkPwHash p (Generate_password_hash p s1) = true ∧
    (s1 ≠ s2 →
       Generate_password_hash p s1 ≠ Generate_password_hash p s2 ∧
       checkPwHash p (Generate_password_hash p s2) = true) := by
  refine ⟨?_, ?_⟩
  · simp [checkPwHash, Generate_password_hash]
  · intro h
    refine ⟨?_, ?_⟩
    · intro hc
      exact h (congrArg HashToken.salt hc)
    · simp [checkPwHash, Generate_password_hash]

/-- Claim C9 witness: "pw1" verifies against its salt-0 token, and the
salt-0 and salt-1 tokens differ. -/
theorem hash_verify_spec_witness :
    checkPwHash "pw1" (Generate_password_hash "pw1" 0) = true ∧
    Generate_password_hash "pw1" 0 ≠ Generate_password_hash "pw1" 1 := by
  have h := hash_verify_spec "pw1" 0 1
  exact ⟨h.1, (h.2 (by decide)).1⟩

/-- Claim C10: an authenticated caller posting an empty text creates no
message row and changes nothing else — store and session come back exactly
as they were — yet the handler completes with the success redirect to "/",
not an error. -/
theorem addMessage_empty_noop (s : Store) (sess : Session) (uid : Nat) (uname : String)
    (now : Int) (hid : sess.userId = some uid) (hun : sess.username = some uname)
    (h0 : uid ≠ 0) :
    addMessage s sess "" now = (HResult.redirect "/", s, sess) := by
  obtain ⟨a, b, fl⟩ := sess
  have ha : a = some uid := hid
  have hb : b = some uname := hun
  subst ha
  subst hb
  simp [addMessage, getUserSession, h0]

/-- Claim C10 witness: alice posting an empty message leaves the store and
session unchanged and redirects. -/
theorem addMessage_empty_noop_witness :
    addMessage wStoreBob wSessAlice "" 99 = (HResult.redirect "/", wStoreBob, wSessAlice) :=
  addMessage_empty_noop wStoreBob wSessAlice 2 "alice" 99 rfl rfl (by decide)

end Minitwit
